import Mathlib

/-!
# Verification of the eth-vibes multi-timeframe price-impact engine

Shallow embedding of the impact-correlation logic of the repository:

* `fetchMultiTimeframePricesClient` (src/src/app/page.tsx) — the
  headline (tweet) multi-timeframe impact calculator;
* `backfillMacroEventPrices` (src/src/app/page.tsx) — historical
  backfill of macro-event price windows;
* the per-second live-tracking tick of `useMacroEvents`
  (src/src/app/page.tsx) — the macro event state machine;
* `saveTweetImpact`, `saveMacroEventPrices`,
  `storedTweetToAppFormat`, `storedMacroEventToAppFormat`
  (src/lib/supabase.ts) — the cache layer.

Prices and percentage changes are modelled as rationals (`ℚ`), wall-clock
instants as integers (milliseconds since epoch, `ℤ`).  A fallible upstream
price fetch is a function returning `Option ℚ` (`none` = Unavailable).
Network I/O is abstracted into such price functions; the `delay` throttle
calls have no observable effect on the computed values and are dropped.
-/

namespace EthVibes

/-- The four timeframe keys used by the tweet calculator and the macro
tracker (`TimeframeKey` / `MACRO_WINDOWS` keys in page.tsx). -/
inductive TimeframeKey where
  | m1 | m10 | m30 | h1
deriving DecidableEq, Repr, Fintype

/-- Kline interval passed to the Binance fetch (`"1m"` or `"1h"`). -/
inductive Interval where
  | i1m | i1h
deriving DecidableEq, Repr

/-- A price source: timestamp (ms) and kline interval to a price or
Unavailable.  Models `fetchBinancePrice(timestamp, interval, symbol)` for a
fixed symbol. -/
def PriceSource : Type := ℤ → Interval → Option ℚ

/-- `TIMEFRAME_CONFIGS` of page.tsx: key, duration ms, kline interval. -/
def TIMEFRAME_CONFIGS : TimeframeKey → ℤ × Interval
  | .m1 => (60 * 1000, .i1m)
  | .m10 => (10 * 60 * 1000, .i1m)
  | .m30 => (30 * 60 * 1000, .i1m)
  | .h1 => (60 * 60 * 1000, .i1h)

/-- Duration in milliseconds of a timeframe. -/
def tfMs (k : TimeframeKey) : ℤ := (TIMEFRAME_CONFIGS k).1

/-- Kline interval of a timeframe. -/
def tfInterval (k : TimeframeKey) : Interval := (TIMEFRAME_CONFIGS k).2

/-- `TIMEFRAME_WEIGHTS` of page.tsx: lower timeframes weighted higher. -/
def TIMEFRAME_WEIGHTS : TimeframeKey → ℚ
  | .m1 => 4
  | .m10 => 3
  | .m30 => 2
  | .h1 => 1

/-- `TimeframeData` of page.tsx: per-timeframe price, percent change and
pending flag (`pending = true` ↔ the spec's `resolved = false`). -/
structure TimeframeData where
  price : Option ℚ
  change : Option ℚ
  pending : Bool
deriving DecidableEq, Repr

/-- Impact direction classification. -/
inductive Direction where
  | positive | negative | neutral
deriving DecidableEq, Repr

/-- Result of `fetchMultiTimeframePricesClient`. -/
structure ImpactResult where
  priceAtT : Option ℚ
  timeframes : TimeframeKey → TimeframeData
  impactScore : ℚ
  impactDirection : Direction
deriving DecidableEq

/-- The fixed iteration order of `TIMEFRAME_CONFIGS` /
`Object.entries(timeframes)`. -/
def tfKeys : List TimeframeKey := [.m1, .m10, .m30, .h1]

/-- One iteration of the per-timeframe loop of
`fetchMultiTimeframePricesClient` (page.tsx lines 372–389): pending if the
target time is still in the future, otherwise fetch the price and compute
the percent change when the price is available and the baseline non-zero. -/
def computeTimeframe (f : PriceSource) (timestamp now : ℤ) (priceAtT : ℚ)
    (k : TimeframeKey) : TimeframeData :=
  let targetTime := timestamp + tfMs k
  if targetTime > now then
    { price := none, change := none, pending := true }
  else
    let price := f targetTime (tfInterval k)
    let change : Option ℚ :=
      match price with
      | some p => if priceAtT ≠ 0 then some ((p - priceAtT) / priceAtT * 100) else none
      | none => none
    { price := price, change := change, pending := false }

/-- Accumulator of the weighted-vote aggregation loop. -/
structure VoteAcc where
  weightedPositive : ℚ
  weightedNegative : ℚ
  weightedMagnitude : ℚ
  totalWeight : ℚ
deriving DecidableEq, Repr

/-- One iteration of the aggregation loop (page.tsx lines 397–405). -/
def voteStep (tfs : TimeframeKey → TimeframeData) (acc : VoteAcc)
    (k : TimeframeKey) : VoteAcc :=
  match (tfs k).change with
  | none => acc
  | some c =>
    let weight := TIMEFRAME_WEIGHTS k
    { weightedPositive := acc.weightedPositive + (if c > 0 then weight else 0)
      weightedNegative := acc.weightedNegative + (if c < 0 then weight else 0)
      weightedMagnitude := acc.weightedMagnitude + |c| * weight
      totalWeight := acc.totalWeight + weight }

/-- The weighted-vote totals over all four timeframes. -/
def voteTotals (tfs : TimeframeKey → TimeframeData) : VoteAcc :=
  tfKeys.foldl (voteStep tfs) ⟨0, 0, 0, 0⟩

/-- Direction and score aggregation of `fetchMultiTimeframePricesClient`
(page.tsx lines 391–417), as a function of the timeframe results. -/
def aggregateImpact (tfs : TimeframeKey → TimeframeData) : ℚ × Direction :=
  let acc := voteTotals tfs
  let impactDirection : Direction :=
    if acc.weightedPositive > acc.weightedNegative then .positive
    else if acc.weightedNegative > acc.weightedPositive then .negative
    else .neutral
  let consistencyFactor : ℚ :=
    if acc.totalWeight > 0 then
      max acc.weightedPositive acc.weightedNegative / acc.totalWeight
    else 0
  let avgWeightedMagnitude : ℚ :=
    if acc.totalWeight > 0 then acc.weightedMagnitude / acc.totalWeight else 0
  (avgWeightedMagnitude * consistencyFactor, impactDirection)

/-- `fetchMultiTimeframePricesClient(timestamp, asset)` of page.tsx
(lines 339–420), for a fixed asset whose price source is `f`;
`now = Date.now()` is passed explicitly. -/
def fetchMultiTimeframePricesClient (f : PriceSource) (timestamp now : ℤ) :
    ImpactResult :=
  match f timestamp .i1m with
  | none =>
    { priceAtT := none
      timeframes := fun _ => { price := none, change := none, pending := false }
      impactScore := 0
      impactDirection := .neutral }
  | some priceAtT =>
    let timeframes := computeTimeframe f timestamp now priceAtT
    let agg := aggregateImpact timeframes
    { priceAtT := some priceAtT
      timeframes := timeframes
      impactScore := agg.1
      impactDirection := agg.2 }

/-! ## Macro event tracking (backfill and live tick) -/

/-- Per-window tracking data of a macro event
(`priceWindows` entries in page.tsx): `locked = true` is the spec's
`resolved = true`. -/
structure WindowData where
  price : Option ℚ
  change : Option ℚ
  locked : Bool
deriving DecidableEq, Repr

/-- `MACRO_WINDOWS` durations (page.tsx lines 1247–1252); same durations
as `tfMs`, the historical fetch always uses 1m klines. -/
def macroWindowMs (k : TimeframeKey) : ℤ := tfMs k

/-- An empty (pending/unlocked) window. -/
def emptyWindow : WindowData := { price := none, change := none, locked := false }

/-- `backfillMacroEventPrices(event, asset)` of page.tsx (lines 1275–1321)
for a fixed asset whose historical 1m-kline price source is `f`:
fetch baseline at the event timestamp; if unavailable return all-empty
windows; otherwise for each window whose time has passed fetch the price
and, when available, store price/change with `locked := true` — on fetch
failure the window is left untouched (still `emptyWindow`). -/
def backfillMacroEventPrices (f : ℤ → Option ℚ) (timestamp now : ℤ) :
    Option ℚ × (TimeframeKey → WindowData) :=
  match f timestamp with
  | none => (none, fun _ => emptyWindow)
  | some baselinePrice =>
    (some baselinePrice, fun k =>
      let windowTime := timestamp + macroWindowMs k
      if windowTime ≤ now then
        match f windowTime with
        | some price =>
          { price := some price
            change := some ((price - baselinePrice) / baselinePrice * 100)
            locked := true }
        | none => emptyWindow
      else emptyWindow)

/-- Tracking status of a macro event. -/
inductive MacroStatus where
  | upcoming | released | tracking | complete
deriving DecidableEq, Repr

/-- The tracked state of one macro event held by `useMacroEvents`. -/
structure MacroEventState where
  timestamp : ℤ
  baselinePrice : Option ℚ
  priceWindows : TimeframeKey → WindowData
  status : MacroStatus
deriving DecidableEq

/-- First phase of the per-second tick (page.tsx lines 1452–1466), run
before the live-price poll: events that are `upcoming` and whose timestamp
has passed become `released`; everything else is unchanged. -/
def tickPhase1 (now : ℤ) (e : MacroEventState) : MacroEventState :=
  if e.status = .complete then e
  else if e.status = .upcoming ∧ e.timestamp ≤ now then
    { e with status := .released }
  else e

/-- The per-window update of the tracking branch (page.tsx lines
1491–1503): an unlocked window takes the current live price and change and
locks once `now - timestamp ≥ durationMs`; a locked window is untouched. -/
def updateWindow (baselinePrice currentPrice : ℚ) (timeSinceRelease : ℤ)
    (k : TimeframeKey) (w : WindowData) : WindowData :=
  if w.locked then w
  else
    { price := some currentPrice
      change := some ((currentPrice - baselinePrice) / baselinePrice * 100)
      locked := timeSinceRelease ≥ macroWindowMs k }

/-- Second phase of the per-second tick (page.tsx lines 1472–1525), run
only when the live-price poll succeeded with `currentPrice`: `complete`
and `upcoming` events are skipped; a `released` event with no baseline
captures the live price as baseline and moves to `tracking`; a `tracking`
event with a baseline updates every unlocked window and moves to
`complete` once all windows are locked.  (`changed` is true iff some
window was unlocked; when no window is unlocked the event is returned
unchanged, which on a tracking event can only happen with all windows
already locked.) -/
def tickPhase2 (now : ℤ) (currentPrice : ℚ) (e : MacroEventState) :
    MacroEventState :=
  if e.status = .complete ∨ e.status = .upcoming then e
  else if e.baselinePrice = none ∧ e.status = .released then
    { e with baselinePrice := some currentPrice, status := .tracking }
  else
    match e.baselinePrice with
    | none => e
    | some baselinePrice =>
      if e.status = .tracking then
        let timeSinceRelease := now - e.timestamp
        let newWindows := fun k =>
          updateWindow baselinePrice currentPrice timeSinceRelease k
            (e.priceWindows k)
        let changed := decide (∃ k, (e.priceWindows k).locked = false)
        let allLocked := decide (∀ k, (newWindows k).locked = true)
        if changed then
          { e with
            priceWindows := newWindows
            status := if allLocked then .complete else .tracking }
        else e
      else e

/-- One full tick of the `useMacroEvents` interval for one event:
phase 1 at `now₁ = Date.now()`, then the live-price poll (`poll`,
`none` = failure), then — only on success — phase 2 at `now₂` (the code
re-reads `Date.now()` inside the second state update). -/
def tick (now₁ now₂ : ℤ) (poll : Option ℚ) (e : MacroEventState) :
    MacroEventState :=
  let e₁ := tickPhase1 now₁ e
  match poll with
  | none => e₁
  | some currentPrice => tickPhase2 now₂ currentPrice e₁

/-! ## Server price route (multi-timeframe mode) -/

/-- The five timeframe keys of the server price route's `TIMEFRAMES`
table (it adds `1d` to the client's four). -/
inductive RouteKey where
  | m1 | m10 | m30 | h1 | d1
deriving DecidableEq, Repr, Fintype

/-- Kline interval strings used by the route (`"1m"`, `"1h"`, `"1d"`). -/
inductive RouteInterval where
  | i1m | i1h | i1d
deriving DecidableEq, Repr

/-- The route's `TIMEFRAMES`: duration ms and kline interval per key. -/
def ROUTE_TIMEFRAMES : RouteKey → ℤ × RouteInterval
  | .m1 => (60 * 1000, .i1m)
  | .m10 => (10 * 60 * 1000, .i1m)
  | .m30 => (30 * 60 * 1000, .i1m)
  | .h1 => (60 * 60 * 1000, .i1h)
  | .d1 => (24 * 60 * 60 * 1000, .i1d)

/-- Multi-timeframe response body of the route. -/
structure RouteImpactResult where
  priceAtT : Option ℚ
  timeframes : RouteKey → TimeframeData
  impactScore : ℚ
  impactDirection : Direction
deriving DecidableEq

/-- Iteration order of `Object.entries(TIMEFRAMES)`. -/
def routeKeys : List RouteKey := [.m1, .m10, .m30, .h1, .d1]

/-- Count accumulator of the route's impact-score loop. -/
structure CountAcc where
  positiveCount : ℚ
  negativeCount : ℚ
  totalMagnitude : ℚ
  validCount : ℚ
deriving DecidableEq, Repr

/-- One iteration of the route's aggregation loop. -/
def countStep (tfs : RouteKey → TimeframeData) (acc : CountAcc)
    (k : RouteKey) : CountAcc :=
  match (tfs k).change with
  | none => acc
  | some c =>
    { positiveCount := acc.positiveCount + (if c > 0 then 1 else 0)
      negativeCount := acc.negativeCount + (if c < 0 then 1 else 0)
      totalMagnitude := acc.totalMagnitude + |c|
      validCount := acc.validCount + 1 }

/-- The multi-timeframe mode of the price route's `GET` handler
(src/unnamed/part_000, lines 110–198), with the upstream `fetchPrice`
abstracted as `f` (the baseline fetch uses the default `"1m"` interval):
baseline Unavailable returns every timeframe
`{price: null, change: null, pending: false}` with score 0 and neutral
direction; otherwise each elapsed timeframe is fetched and the impact
score is the unweighted count-based analogue of the client formula. -/
def routeMultiTimeframeGET (f : ℤ → RouteInterval → Option ℚ)
    (timeT now : ℤ) : RouteImpactResult :=
  match f timeT .i1m with
  | none =>
    { priceAtT := none
      timeframes := fun _ => { price := none, change := none, pending := false }
      impactScore := 0
      impactDirection := .neutral }
  | some priceAtT =>
    let timeframes : RouteKey → TimeframeData := fun k =>
      let targetTime := timeT + (ROUTE_TIMEFRAMES k).1
      if targetTime > now then
        { price := none, change := none, pending := true }
      else
        let price := f targetTime (ROUTE_TIMEFRAMES k).2
        let change : Option ℚ :=
          match price with
          | some p =>
            if priceAtT ≠ 0 then some ((p - priceAtT) / priceAtT * 100) else none
          | none => none
        { price := price, change := change, pending := false }
    let acc := routeKeys.foldl (countStep timeframes) ⟨0, 0, 0, 0⟩
    let impactDirection : Direction :=
      if acc.positiveCount > acc.negativeCount then .positive
      else if acc.negativeCount > acc.positiveCount then .negative
      else .neutral
    let impactScore : ℚ :=
      if acc.validCount > 0 then
        acc.totalMagnitude / acc.validCount *
          (max acc.positiveCount acc.negativeCount / acc.validCount)
      else 0
    { priceAtT := some priceAtT
      timeframes := timeframes
      impactScore := impactScore
      impactDirection := impactDirection }

/-! ## Cache layer (src/lib/supabase.ts)

The four per-timeframe columns `timeframe_1m … timeframe_1h`
(resp. `window_1m … window_1h`) of a stored row are represented as a
function `TimeframeKey → Option _`; a `none` entry is a SQL NULL column. -/

/-- The price-impact columns of a stored `tweets` row.  The identity and
text columns are irrelevant to the cached impact data and omitted. -/
structure StoredTweet where
  price_at_t : Option ℚ
  timeframe : TimeframeKey → Option TimeframeData
  impact_score : Option ℚ
  impact_direction : Option Direction
deriving DecidableEq

/-- The computed impact data passed to `saveTweetImpact`. -/
structure TweetImpactInput where
  priceAtT : Option ℚ
  timeframes : TimeframeKey → TimeframeData
  impactScore : ℚ
  impactDirection : Direction
deriving DecidableEq

/-- `existing.timeframe_Xm?.pending && !tweet.timeframes[X].pending`:
a stored timeframe column is updated only when it is present and still
pending and the incoming timeframe is no longer pending (a NULL column is
never updated — optional chaining yields `undefined`, which is falsy). -/
def tweetTfUpdate (existingTf : Option TimeframeData) (newTf : TimeframeData) :
    Bool :=
  (match existingTf with
   | some tf => tf.pending
   | none => false) && !newTf.pending

/-- The update branch of `saveTweetImpact` (supabase.ts lines 103–146),
taken when a row for (id, asset) already exists: merge the incoming data
into the stored row.  `price_at_t` is written only if previously NULL and
now available; each timeframe column only per `tweetTfUpdate`; score and
direction are rewritten exactly when at least one other column is updated
(`Object.keys(updates).length > 1`, `updates` always holding
`updated_at`). -/
def saveTweetImpactMerge (existing : StoredTweet) (tweet : TweetImpactInput) :
    StoredTweet :=
  let priceUpd := existing.price_at_t = none ∧ tweet.priceAtT ≠ none
  let tfUpd := fun k => tweetTfUpdate (existing.timeframe k) (tweet.timeframes k)
  let anyUpd := priceUpd ∨ ∃ k, tfUpd k = true
  { price_at_t := if priceUpd then tweet.priceAtT else existing.price_at_t
    timeframe := fun k =>
      if tfUpd k then some (tweet.timeframes k) else existing.timeframe k
    impact_score :=
      if anyUpd then some tweet.impactScore else existing.impact_score
    impact_direction :=
      if anyUpd then some tweet.impactDirection else existing.impact_direction }

/-- The price columns of a stored `macro_events` row. -/
structure StoredMacroEvent where
  baseline_price : Option ℚ
  window : TimeframeKey → Option WindowData
deriving DecidableEq

/-- The data passed to `saveMacroEventPrices`. -/
structure MacroSaveInput where
  baselinePrice : Option ℚ
  priceWindows : TimeframeKey → WindowData
deriving DecidableEq

/-- `saveMacroEventPrices` (supabase.ts lines 242–292) on a pre-existing
row: the function first DELETEs any existing record for (id, asset) and
then INSERTs the new data, so the resulting stored row is the incoming
data wholesale, independent of what was stored. -/
def saveMacroEventPricesMerge (_existing : StoredMacroEvent)
    (event : MacroSaveInput) : StoredMacroEvent :=
  { baseline_price := event.baselinePrice
    window := fun k => some (event.priceWindows k) }

/-- JavaScript `x || d` on a nullable number: null/undefined and `0` are
falsy. -/
def jsOrNum (x : Option ℚ) (d : ℚ) : ℚ :=
  match x with
  | none => d
  | some s => if s = 0 then d else s

/-- The app-side view of a tweet row produced by `storedTweetToAppFormat`
(supabase.ts lines 175–192). -/
structure TweetAppFormat where
  priceAtT : Option ℚ
  timeframes : TimeframeKey → TimeframeData
  impactScore : ℚ
  impactDirection : Direction
deriving DecidableEq

/-- `storedTweetToAppFormat`: each NULL timeframe column becomes the
pending placeholder `{price: null, change: null, pending: true}`;
`impact_score || 0` and `impact_direction || 'neutral'` (direction strings
are non-empty, hence truthy when present). -/
def storedTweetToAppFormat (stored : StoredTweet) : TweetAppFormat :=
  { priceAtT := stored.price_at_t
    timeframes := fun k =>
      (stored.timeframe k).getD { price := none, change := none, pending := true }
    impactScore := jsOrNum stored.impact_score 0
    impactDirection := stored.impact_direction.getD .neutral }

/-- The app-side view of a macro-event row. -/
structure MacroAppFormat where
  baselinePrice : Option ℚ
  priceWindows : TimeframeKey → WindowData
deriving DecidableEq

/-- `storedMacroEventToAppFormat` (supabase.ts lines 295–305): each NULL
window column becomes `{price: null, change: null, locked: false}`. -/
def storedMacroEventToAppFormat (stored : StoredMacroEvent) : MacroAppFormat :=
  { baselinePrice := stored.baseline_price
    priceWindows := fun k => (stored.window k).getD emptyWindow }

/-! ## Sanity checks: the worked scenario of spec §8

Baseline $100 at `t0 = 0`; price at `+1m` = 101, `+10m` = 102, `+30m`
unavailable, `+1h` still pending at `now = t0 + 30m`. -/

/-- Price source of the spec §8 scenario. -/
def scenarioSource : PriceSource := fun t _ =>
  if t = 0 then some 100
  else if t = 60000 then some 101
  else if t = 600000 then some 102
  else none

example :
    (fetchMultiTimeframePricesClient scenarioSource 0 1800000).timeframes .m1 =
      { price := some 101, change := some 1, pending := false } := by
  simp [fetchMultiTimeframePricesClient, scenarioSource, computeTimeframe,
    tfMs, tfInterval, TIMEFRAME_CONFIGS]
  norm_num

example :
    (fetchMultiTimeframePricesClient scenarioSource 0 1800000).timeframes .m10 =
      { price := some 102, change := some 2, pending := false } := by
  simp [fetchMultiTimeframePricesClient, scenarioSource, computeTimeframe,
    tfMs, tfInterval, TIMEFRAME_CONFIGS]
  norm_num

example :
    (fetchMultiTimeframePricesClient scenarioSource 0 1800000).timeframes .m30 =
      { price := none, change := none, pending := false } := by
  simp [fetchMultiTimeframePricesClient, scenarioSource, computeTimeframe,
    tfMs, tfInterval, TIMEFRAME_CONFIGS]

example :
    (fetchMultiTimeframePricesClient scenarioSource 0 1800000).timeframes .h1 =
      { price := none, change := none, pending := true } := by
  simp [fetchMultiTimeframePricesClient, scenarioSource, computeTimeframe,
    tfMs, tfInterval, TIMEFRAME_CONFIGS]

example :
    (fetchMultiTimeframePricesClient scenarioSource 0 1800000).impactDirection =
      .positive ∧
    (fetchMultiTimeframePricesClient scenarioSource 0 1800000).impactScore =
      10 / 7 := by
  constructor <;>
  · simp [fetchMultiTimeframePricesClient, scenarioSource, computeTimeframe,
      aggregateImpact, voteTotals, voteStep, tfKeys, TIMEFRAME_WEIGHTS,
      tfMs, tfInterval, TIMEFRAME_CONFIGS]
    norm_num

/-! ## Claim C1 — baseline unavailable -/

/-- C1, counterexample.  The claim asserts that when the baseline price
fetch returns Unavailable every timeframe of the returned ImpactResult is
pending (`resolved = false`, i.e. `pending = true`).  With a price source
that is everywhere Unavailable, the `1m` timeframe of the result is in
fact returned with `pending = false` (resolved), refuting the claim at a
concrete input. -/
theorem baselineUnavailable_not_pending :
    ¬ (((fetchMultiTimeframePricesClient (fun _ _ => none) 0 0).timeframes
        TimeframeKey.m1).pending = true) := by
  decide

/-- C1, amended: if the baseline price fetch returns Unavailable, both the
client calculator and the server route return an ImpactResult with
`baselinePrice = null`, every timeframe
`{price: null, change: null, pending: false}` (i.e. resolved, not
pending), `score = 0` and `direction = neutral`. -/
theorem baselineUnavailable_all_null_resolved (f : PriceSource)
    (g : ℤ → RouteInterval → Option ℚ) (ts now ts' now' : ℤ)
    (hf : f ts .i1m = none) (hg : g ts' .i1m = none) :
    fetchMultiTimeframePricesClient f ts now =
      { priceAtT := none
        timeframes := fun _ => { price := none, change := none, pending := false }
        impactScore := 0
        impactDirection := .neutral } ∧
    routeMultiTimeframeGET g ts' now' =
      { priceAtT := none
        timeframes := fun _ => { price := none, change := none, pending := false }
        impactScore := 0
        impactDirection := .neutral } := by
  constructor
  · simp only [fetchMultiTimeframePricesClient, hf]
  · simp only [routeMultiTimeframeGET, hg]

/-- C1, witness: the amended theorem applied to the everywhere-Unavailable
price source at timestamp 0. -/
theorem baselineUnavailable_all_null_resolved_witness :
    ((fun (_ : ℤ) (_ : Interval) => (none : Option ℚ)) 0 Interval.i1m = none) ∧
    ((fun (_ : ℤ) (_ : RouteInterval) => (none : Option ℚ)) 0
        RouteInterval.i1m = none) ∧
    fetchMultiTimeframePricesClient (fun _ _ => none) 0 0 =
      { priceAtT := none
        timeframes := fun _ => { price := none, change := none, pending := false }
        impactScore := 0
        impactDirection := .neutral } ∧
    routeMultiTimeframeGET (fun _ _ => none) 0 0 =
      { priceAtT := none
        timeframes := fun _ => { price := none, change := none, pending := false }
        impactScore := 0
        impactDirection := .neutral } :=
  ⟨rfl, rfl,
    (baselineUnavailable_all_null_resolved (fun _ _ => none) (fun _ _ => none)
      0 0 0 0 rfl rfl).1,
    (baselineUnavailable_all_null_resolved (fun _ _ => none) (fun _ _ => none)
      0 0 0 0 rfl rfl).2⟩

/-! ## Claim C2 — pending boundary -/

/-- C2, counterexample.  The claim asserts that for every offset `d` the
computed TimeframeResult is pending (`resolved = false`) exactly when
`event.timestamp + d > now`, in particular pending at
`now = event.timestamp + d - 1`.  When the baseline fetch returns
Unavailable the code marks every timeframe `pending = false` regardless
of `now`: at `timestamp = 0`, `d = 60000` (the 1m offset) and
`now = 59999` the result is not pending, refuting the claim. -/
theorem pending_boundary_claim_false :
    ¬ (((fetchMultiTimeframePricesClient (fun _ _ => none) 0 59999).timeframes
        TimeframeKey.m1).pending = true) := by
  decide

/-- C2, amended: provided the baseline price fetch succeeds, a timeframe
is resolved (`pending = false`) exactly when
`event.timestamp + durationMs ≤ now`, and a still-pending timeframe
carries `price = null`, `change = null`; this holds for the client
calculator and for the server route.  (When the baseline fetch fails,
every timeframe is instead returned with `pending = false` — claim C1.) -/
theorem pending_boundary (f : PriceSource) (ts now : ℤ) (p : ℚ)
    (hf : f ts .i1m = some p) (g : ℤ → RouteInterval → Option ℚ)
    (ts' now' : ℤ) (q : ℚ) (hg : g ts' .i1m = some q) :
    (∀ k, (((fetchMultiTimeframePricesClient f ts now).timeframes k).pending
        = false ↔ ts + tfMs k ≤ now)) ∧
    (∀ k, ts + tfMs k > now →
      (fetchMultiTimeframePricesClient f ts now).timeframes k =
        { price := none, change := none, pending := true }) ∧
    (∀ k, (((routeMultiTimeframeGET g ts' now').timeframes k).pending
        = false ↔ ts' + (ROUTE_TIMEFRAMES k).1 ≤ now')) ∧
    (∀ k, ts' + (ROUTE_TIMEFRAMES k).1 > now' →
      (routeMultiTimeframeGET g ts' now').timeframes k =
        { price := none, change := none, pending := true }) := by
  refine ⟨fun k => ?_, fun k hk => ?_, fun k => ?_, fun k hk => ?_⟩
  · simp only [fetchMultiTimeframePricesClient, hf, computeTimeframe]
    by_cases h : ts + tfMs k > now
    · simp only [if_pos h]
      constructor
      · intro hc
        exact absurd hc (by simp)
      · intro hle
        omega
    · simp only [if_neg h]
      constructor
      · intro _
        omega
      · intro _
        trivial
  · simp only [fetchMultiTimeframePricesClient, hf, computeTimeframe,
      if_pos hk]
  · simp only [routeMultiTimeframeGET, hg]
    by_cases h : ts' + (ROUTE_TIMEFRAMES k).1 > now'
    · simp only [if_pos h]
      constructor
      · intro hc
        exact absurd hc (by simp)
      · intro hle
        omega
    · simp only [if_neg h]
      constructor
      · intro _
        omega
      · intro _
        trivial
  · simp only [routeMultiTimeframeGET, hg, if_pos hk]

/-- C2, witness: a price source with baseline 100 at timestamp 0; the 1m
offset is pending at `now = 59999 = 0 + 60000 - 1` and resolved at
`now = 60000 = 0 + 60000`. -/
theorem pending_boundary_witness :
    ((fun (_ : ℤ) (_ : Interval) => (some 100 : Option ℚ)) 0 Interval.i1m
      = some 100) ∧
    ((fun (_ : ℤ) (_ : RouteInterval) => (some 100 : Option ℚ)) 0
      RouteInterval.i1m = some 100) ∧
    (((fetchMultiTimeframePricesClient (fun _ _ => some 100) 0 59999).timeframes
        TimeframeKey.m1).pending = false ↔ (0 : ℤ) + tfMs .m1 ≤ 59999) ∧
    (((fetchMultiTimeframePricesClient (fun _ _ => some 100) 0 60000).timeframes
        TimeframeKey.m1).pending = false ↔ (0 : ℤ) + tfMs .m1 ≤ 60000) :=
  ⟨rfl, rfl,
    (pending_boundary (fun _ _ => some 100) 0 59999 100 rfl
      (fun _ _ => some 100) 0 0 100 rfl).1 .m1,
    (pending_boundary (fun _ _ => some 100) 0 60000 100 rfl
      (fun _ _ => some 100) 0 0 100 rfl).1 .m1⟩

/-! ## Claim C9 — monotonic resolution -/

/-- C9: for a fixed upstream price function, a timeframe that is resolved
(`pending = false`) when the calculator runs at `now = T₁` has an
identical TimeframeResult (price, change and pending flag) when the
calculator is re-run at any later `now = T₂ > T₁` — resolved results are
write-once. -/
theorem monotonic_resolution (f : PriceSource) (ts T₁ T₂ : ℤ)
    (hT : T₁ < T₂) (k : TimeframeKey)
    (hres : ((fetchMultiTimeframePricesClient f ts T₁).timeframes k).pending
      = false) :
    (fetchMultiTimeframePricesClient f ts T₂).timeframes k =
      (fetchMultiTimeframePricesClient f ts T₁).timeframes k := by
  cases h : f ts .i1m with
  | none =>
    simp only [fetchMultiTimeframePricesClient, h]
  | some p =>
    simp only [fetchMultiTimeframePricesClient, h, computeTimeframe]
      at hres ⊢
    by_cases h1 : ts + tfMs k > T₁
    · rw [if_pos h1] at hres
      exact absurd hres (by simp)
    · have h2 : ¬ ts + tfMs k > T₂ := by omega
      rw [if_neg h1, if_neg h2]

/-- C9, witness: constant price source, timestamp 0, the 1m offset
resolved at `T₁ = 60000` and re-computed at `T₂ = 60001`. -/
theorem monotonic_resolution_witness :
    (60000 : ℤ) < 60001 ∧
    ((fetchMultiTimeframePricesClient (fun _ _ => some 100) 0 60000).timeframes
      TimeframeKey.m1).pending = false ∧
    (fetchMultiTimeframePricesClient (fun _ _ => some 100) 0 60001).timeframes
        TimeframeKey.m1 =
      (fetchMultiTimeframePricesClient (fun _ _ => some 100) 0 60000).timeframes
        TimeframeKey.m1 := by
  refine ⟨by omega, ?_, ?_⟩
  · simp [fetchMultiTimeframePricesClient, computeTimeframe, tfMs,
      TIMEFRAME_CONFIGS]
  · exact monotonic_resolution (fun _ _ => some 100) 0 60000 60001 (by omega)
      TimeframeKey.m1 (by simp [fetchMultiTimeframePricesClient,
        computeTimeframe, tfMs, TIMEFRAME_CONFIGS])

/-! ## Claim C10 — reading the cache never fabricates resolved data -/

/-- C10: `storedTweetToAppFormat` maps a NULL timeframe column to the
pending placeholder `{price: null, change: null, pending: true}`, a NULL
score to 0 and a NULL direction to neutral; `storedMacroEventToAppFormat`
maps a NULL window column to
`{price: null, change: null, locked: false}`. -/
theorem stored_null_reads_as_pending (s : StoredTweet) (m : StoredMacroEvent)
    (k : TimeframeKey) :
    (s.timeframe k = none →
      (storedTweetToAppFormat s).timeframes k =
        { price := none, change := none, pending := true }) ∧
    (s.impact_score = none → (storedTweetToAppFormat s).impactScore = 0) ∧
    (s.impact_direction = none →
      (storedTweetToAppFormat s).impactDirection = .neutral) ∧
    (m.window k = none →
      (storedMacroEventToAppFormat m).priceWindows k =
        { price := none, change := none, locked := false }) := by
  refine ⟨fun h => ?_, fun h => ?_, fun h => ?_, fun h => ?_⟩ <;>
    simp [storedTweetToAppFormat, storedMacroEventToAppFormat, jsOrNum,
      emptyWindow, h]

/-- C10, witness: the all-NULL stored rows. -/
theorem stored_null_reads_as_pending_witness :
    ((⟨none, fun _ => none, none, none⟩ : StoredTweet).timeframe .m1 = none) ∧
    (storedTweetToAppFormat ⟨none, fun _ => none, none, none⟩).timeframes .m1 =
      { price := none, change := none, pending := true } ∧
    (storedTweetToAppFormat ⟨none, fun _ => none, none, none⟩).impactScore = 0 ∧
    (storedTweetToAppFormat
        ⟨none, fun _ => none, none, none⟩).impactDirection = .neutral ∧
    (storedMacroEventToAppFormat ⟨none, fun _ => none⟩).priceWindows .m1 =
      { price := none, change := none, locked := false } :=
  ⟨rfl,
    (stored_null_reads_as_pending ⟨none, fun _ => none, none, none⟩
      ⟨none, fun _ => none⟩ .m1).1 rfl,
    (stored_null_reads_as_pending ⟨none, fun _ => none, none, none⟩
      ⟨none, fun _ => none⟩ .m1).2.1 rfl,
    (stored_null_reads_as_pending ⟨none, fun _ => none, none, none⟩
      ⟨none, fun _ => none⟩ .m1).2.2.1 rfl,
    (stored_null_reads_as_pending ⟨none, fun _ => none, none, none⟩
      ⟨none, fun _ => none⟩ .m1).2.2.2 rfl⟩

/-! ## Claim C4 — cache non-regression -/

/-- C4, counterexample.  The claim asserts that a per-timeframe field
stored as resolved/locked is never overwritten, for the tweet upsert and
for the macro-event upsert alike.  The macro-event upsert deletes the
existing row and inserts the new data wholesale: a `1m` window stored
locked with price 100 / change 1 is overwritten by an upsert carrying
price 200 / change 2 for that same locked window. -/
theorem macro_upsert_overwrites_locked :
    ¬ ((saveMacroEventPricesMerge
          ⟨some 100, fun _ => some ⟨some 100, some 1, true⟩⟩
          ⟨some 100, fun _ => ⟨some 200, some 2, true⟩⟩).window .m1 =
        (⟨some 100, fun _ => some ⟨some 100, some 1, true⟩⟩ :
          StoredMacroEvent).window .m1) := by
  intro h
  norm_num [saveMacroEventPricesMerge] at h

/-- C4, amended: the tweet cache upsert never overwrites a timeframe field
stored as resolved (`pending = false`), and writes a timeframe field or
the baseline only if the stored field was pending (resp. NULL); the
macro-event cache upsert instead replaces the whole record (delete then
insert), so every stored window becomes the incoming value regardless of
what was stored. -/
theorem tweet_upsert_non_regression (ex : StoredTweet) (t : TweetImpactInput)
    (k : TimeframeKey) :
    (∀ tf, ex.timeframe k = some tf → tf.pending = false →
      (saveTweetImpactMerge ex t).timeframe k = ex.timeframe k) ∧
    ((saveTweetImpactMerge ex t).timeframe k ≠ ex.timeframe k →
      ∃ tf, ex.timeframe k = some tf ∧ tf.pending = true) ∧
    ((saveTweetImpactMerge ex t).price_at_t ≠ ex.price_at_t →
      ex.price_at_t = none) ∧
    (∀ (exm : StoredMacroEvent) (inp : MacroSaveInput),
      (saveMacroEventPricesMerge exm inp).window k = some (inp.priceWindows k)) := by
  refine ⟨fun tf hm hp => ?_, fun hne => ?_, fun hne => ?_,
    fun exm inp => rfl⟩
  · have hu : tweetTfUpdate (ex.timeframe k) (t.timeframes k) = false := by
      rw [hm]
      simp [tweetTfUpdate, hp]
    simp only [saveTweetImpactMerge]
    rw [if_neg (by simp [hu])]
  · by_cases hu : tweetTfUpdate (ex.timeframe k) (t.timeframes k) = true
    · cases hm : ex.timeframe k with
      | none =>
        rw [hm] at hu
        simp [tweetTfUpdate] at hu
      | some tf =>
        rw [hm] at hu
        simp only [tweetTfUpdate, Bool.and_eq_true] at hu
        exact ⟨tf, rfl, hu.1⟩
    · have hkeep : (saveTweetImpactMerge ex t).timeframe k = ex.timeframe k := by
        simp only [saveTweetImpactMerge]
        rw [if_neg hu]
      exact absurd hkeep hne
  · by_cases hp : ex.price_at_t = none
    · exact hp
    · have hkeep : (saveTweetImpactMerge ex t).price_at_t = ex.price_at_t := by
        simp only [saveTweetImpactMerge]
        rw [if_neg (fun hc => hp hc.1)]
      exact absurd hkeep hne

/-- C4, witness: a stored tweet row with a resolved `1m` timeframe is not
overwritten; a row with a pending `1m` timeframe and NULL baseline is
overwritten (and only then); the macro upsert replaces the stored
window. -/
theorem tweet_upsert_non_regression_witness :
    ((⟨some 100, fun _ => some ⟨some 100, some 1, false⟩, some 1,
        some .positive⟩ : StoredTweet).timeframe .m1 =
      some ⟨some 100, some 1, false⟩) ∧
    (⟨some 100, some 1, false⟩ : TimeframeData).pending = false ∧
    (saveTweetImpactMerge
        ⟨some 100, fun _ => some ⟨some 100, some 1, false⟩, some 1,
          some .positive⟩
        ⟨some 100, fun _ => ⟨some 200, some 2, false⟩, 2, .negative⟩).timeframe
        .m1 =
      (⟨some 100, fun _ => some ⟨some 100, some 1, false⟩, some 1,
        some .positive⟩ : StoredTweet).timeframe .m1 ∧
    (∃ tf, (⟨none, fun _ => some ⟨none, none, true⟩, none, none⟩ :
        StoredTweet).timeframe .m1 = some tf ∧ tf.pending = true) ∧
    ((⟨none, fun _ => some ⟨none, none, true⟩, none, none⟩ :
      StoredTweet).price_at_t = none) ∧
    (saveMacroEventPricesMerge
        ⟨some 100, fun _ => some ⟨some 100, some 1, true⟩⟩
        ⟨some 300, fun _ => ⟨some 200, some 2, true⟩⟩).window .m1 =
      some ⟨some 200, some 2, true⟩ := by
  refine ⟨rfl, rfl, ?_, ?_, ?_, ?_⟩
  · exact (tweet_upsert_non_regression
      ⟨some 100, fun _ => some ⟨some 100, some 1, false⟩, some 1,
        some .positive⟩
      ⟨some 100, fun _ => ⟨some 200, some 2, false⟩, 2, .negative⟩ .m1).1
      ⟨some 100, some 1, false⟩ rfl rfl
  · refine (tweet_upsert_non_regression
      ⟨none, fun _ => some ⟨none, none, true⟩, none, none⟩
      ⟨some 100, fun _ => ⟨some 200, some 2, false⟩, 2, .negative⟩ .m1).2.1 ?_
    simp [saveTweetImpactMerge, tweetTfUpdate]
  · refine (tweet_upsert_non_regression
      ⟨none, fun _ => some ⟨none, none, true⟩, none, none⟩
      ⟨some 100, fun _ => ⟨some 200, some 2, false⟩, 2, .negative⟩ .m1).2.2.1 ?_
    simp [saveTweetImpactMerge, tweetTfUpdate]
  · exact (tweet_upsert_non_regression
      ⟨none, fun _ => some ⟨none, none, true⟩, none, none⟩
      ⟨some 100, fun _ => ⟨some 200, some 2, false⟩, 2, .negative⟩ .m1).2.2.2
      ⟨some 100, fun _ => some ⟨some 100, some 1, true⟩⟩
      ⟨some 300, fun _ => ⟨some 200, some 2, true⟩⟩

/-! ## Claim C5 — elapsed offset with unavailable price -/

/-- C5, counterexample.  The claim asserts that an offset whose target
time has elapsed but whose price fetch returns Unavailable is marked
resolved/locked in both the headline calculator and the macro backfill.
In the macro backfill, with baseline 100 at timestamp 0 and the `1m`
window price unavailable at `now = 3600000`, the window is left
`locked = false`, refuting the claim. -/
theorem backfill_unavailable_window_not_locked :
    ¬ (((backfillMacroEventPrices
          (fun t => if t = 0 then some 100 else none) 0 3600000).2
          TimeframeKey.m1).locked = true) := by
  decide

/-- C5, amended: in the headline calculator an elapsed offset whose price
fetch returns Unavailable is marked `pending = false` (resolved) with
`price = null`, `change = null`; in the macro backfill such a window is
instead left unlocked (`{price: null, change: null, locked: false}`), so
it can be retried later.  In both functions, the result of an offset and
the baseline depend only on the upstream answers at the baseline instant
and at that offset's own target instant, so one offset's failure affects
neither the other offsets nor the baseline. -/
theorem offset_unavailable_isolated :
    (∀ (f : PriceSource) (ts now : ℤ) (p : ℚ) (k : TimeframeKey),
      f ts .i1m = some p → ts + tfMs k ≤ now →
      f (ts + tfMs k) (tfInterval k) = none →
      (fetchMultiTimeframePricesClient f ts now).timeframes k =
        { price := none, change := none, pending := false }) ∧
    (∀ (g : ℤ → Option ℚ) (ts now : ℤ) (q : ℚ) (k : TimeframeKey),
      g ts = some q → ts + macroWindowMs k ≤ now →
      g (ts + macroWindowMs k) = none →
      (backfillMacroEventPrices g ts now).2 k =
        { price := none, change := none, locked := false }) ∧
    (∀ (f f' : PriceSource) (ts now : ℤ) (j : TimeframeKey),
      f ts .i1m = f' ts .i1m →
      f (ts + tfMs j) (tfInterval j) = f' (ts + tfMs j) (tfInterval j) →
      (fetchMultiTimeframePricesClient f ts now).priceAtT =
          (fetchMultiTimeframePricesClient f' ts now).priceAtT ∧
        (fetchMultiTimeframePricesClient f ts now).timeframes j =
          (fetchMultiTimeframePricesClient f' ts now).timeframes j) ∧
    (∀ (g g' : ℤ → Option ℚ) (ts now : ℤ) (j : TimeframeKey),
      g ts = g' ts →
      g (ts + macroWindowMs j) = g' (ts + macroWindowMs j) →
      (backfillMacroEventPrices g ts now).1 =
          (backfillMacroEventPrices g' ts now).1 ∧
        (backfillMacroEventPrices g ts now).2 j =
          (backfillMacroEventPrices g' ts now).2 j) := by
  refine ⟨fun f ts now p k hf hk hn => ?_, fun g ts now q k hg hk hn => ?_,
    fun f f' ts now j hb hj => ?_, fun g g' ts now j hb hj => ?_⟩
  · simp only [fetchMultiTimeframePricesClient, hf, computeTimeframe]
    rw [if_neg (by omega), hn]
  · simp only [backfillMacroEventPrices, hg]
    rw [if_pos hk, hn]
    rfl
  · cases hb' : f' ts .i1m with
    | none =>
      rw [hb'] at hb
      simp only [fetchMultiTimeframePricesClient, hb, hb']
      exact ⟨trivial, trivial⟩
    | some p =>
      rw [hb'] at hb
      simp only [fetchMultiTimeframePricesClient, hb, hb']
      refine ⟨trivial, ?_⟩
      simp only [computeTimeframe, hj]
  · cases hb' : g' ts with
    | none =>
      rw [hb'] at hb
      simp only [backfillMacroEventPrices, hb, hb']
      exact ⟨trivial, trivial⟩
    | some q =>
      rw [hb'] at hb
      simp only [backfillMacroEventPrices, hb, hb']
      refine ⟨trivial, ?_⟩
      simp only [hj]

/-- C5, witness: baseline 100 at timestamp 0, the `1m` target price
unavailable, `now = 3600000`; a second pair of sources differing only at
the `1m` target, checked at the `10m` offset. -/
theorem offset_unavailable_isolated_witness :
    ((fun (t : ℤ) (_ : Interval) => if t = 0 then (some 100 : Option ℚ)
        else none) 0 Interval.i1m = some 100) ∧
    ((0 : ℤ) + tfMs .m1 ≤ 3600000) ∧
    (fetchMultiTimeframePricesClient
        (fun t _ => if t = 0 then some 100 else none) 0 3600000).timeframes
        TimeframeKey.m1 =
      { price := none, change := none, pending := false } ∧
    (backfillMacroEventPrices
        (fun t => if t = 0 then some 100 else none) 0 3600000).2
        TimeframeKey.m1 =
      { price := none, change := none, locked := false } ∧
    (fetchMultiTimeframePricesClient
          (fun t _ => if t = 0 then some 100 else none) 0 3600000).timeframes
          TimeframeKey.m10 =
        (fetchMultiTimeframePricesClient
          (fun (t : ℤ) (_ : Interval) => if t = 0 then some 100
            else if t = 60000 then some 101 else none) 0 3600000).timeframes
          TimeframeKey.m10 ∧
    (backfillMacroEventPrices
          (fun t => if t = 0 then some 100 else none) 0 3600000).2
          TimeframeKey.m10 =
        (backfillMacroEventPrices
          (fun (t : ℤ) => if t = 0 then some 100
            else if t = 60000 then some 101 else none) 0 3600000).2
          TimeframeKey.m10 := by
  refine ⟨by decide, by decide, ?_, ?_, ?_, ?_⟩
  · exact offset_unavailable_isolated.1
      (fun t _ => if t = 0 then some 100 else none) 0 3600000 100 .m1
      (by decide) (by decide) (by decide)
  · exact offset_unavailable_isolated.2.1
      (fun t => if t = 0 then some 100 else none) 0 3600000 100 .m1
      (by decide) (by decide) (by decide)
  · exact (offset_unavailable_isolated.2.2.1
      (fun t _ => if t = 0 then some 100 else none)
      (fun t _ => if t = 0 then some 100
        else if t = 60000 then some 101 else none) 0 3600000 .m10
      (by decide) (by decide)).2
  · exact (offset_unavailable_isolated.2.2.2
      (fun t => if t = 0 then some 100 else none)
      (fun t => if t = 0 then some 100
        else if t = 60000 then some 101 else none) 0 3600000 .m10
      (by decide) (by decide)).2

/-! ## Claims C6/C7 — the live-tracking tick -/

/-- Phase 1 of the tick never touches the price windows. -/
theorem tickPhase1_priceWindows (now : ℤ) (e : MacroEventState) :
    (tickPhase1 now e).priceWindows = e.priceWindows := by
  unfold tickPhase1
  split_ifs <;> rfl

/-- Phase 1 of the tick never touches the baseline price. -/
theorem tickPhase1_baselinePrice (now : ℤ) (e : MacroEventState) :
    (tickPhase1 now e).baselinePrice = e.baselinePrice := by
  unfold tickPhase1
  split_ifs <;> rfl

/-- Phase 1 of the tick never touches the timestamp. -/
theorem tickPhase1_timestamp (now : ℤ) (e : MacroEventState) :
    (tickPhase1 now e).timestamp = e.timestamp := by
  unfold tickPhase1
  split_ifs <;> rfl

/-- Phase 1 leaves a non-upcoming event entirely unchanged. -/
theorem tickPhase1_not_upcoming (now : ℤ) (e : MacroEventState)
    (h : e.status ≠ .upcoming) : tickPhase1 now e = e := by
  unfold tickPhase1
  split_ifs with h1 h2
  · rfl
  · exact absurd h2.1 h
  · rfl

/-- Phase 2 never modifies a locked window, whatever the event state. -/
theorem tickPhase2_locked_preserved (now : ℤ) (p : ℚ) (e : MacroEventState)
    (k : TimeframeKey) (hk : (e.priceWindows k).locked = true) :
    (tickPhase2 now p e).priceWindows k = e.priceWindows k := by
  unfold tickPhase2
  by_cases h1 : e.status = .complete ∨ e.status = .upcoming
  · rw [if_pos h1]
  · rw [if_neg h1]
    by_cases h2 : e.baselinePrice = none ∧ e.status = .released
    · rw [if_pos h2]
    · rw [if_neg h2]
      cases hb : e.baselinePrice with
      | none => rfl
      | some b =>
        dsimp only
        by_cases h3 : e.status = .tracking
        · rw [if_pos h3]
          by_cases h4 :
              decide (∃ k', (e.priceWindows k').locked = false) = true
          · rw [if_pos h4]
            show updateWindow b p (now - e.timestamp) k (e.priceWindows k) =
              e.priceWindows k
            simp [updateWindow, hk]
          · rw [if_neg h4]
        · rw [if_neg h3]

/-- Phase 2 locks a previously unlocked window only if that window's
duration has elapsed at the tick instant. -/
theorem tickPhase2_lock_requires_elapsed (now : ℤ) (p : ℚ)
    (e : MacroEventState) (k : TimeframeKey)
    (hk : (e.priceWindows k).locked = false)
    (hl : ((tickPhase2 now p e).priceWindows k).locked = true) :
    now - e.timestamp ≥ macroWindowMs k := by
  unfold tickPhase2 at hl
  by_cases h1 : e.status = .complete ∨ e.status = .upcoming
  · rw [if_pos h1, hk] at hl
    exact absurd hl (by simp)
  · rw [if_neg h1] at hl
    by_cases h2 : e.baselinePrice = none ∧ e.status = .released
    · rw [if_pos h2] at hl
      rw [show ({ e with baselinePrice := some p, status := .tracking } :
        MacroEventState).priceWindows = e.priceWindows from rfl, hk] at hl
      exact absurd hl (by simp)
    · rw [if_neg h2] at hl
      cases hb : e.baselinePrice with
      | none =>
        rw [hb] at hl
        dsimp only at hl
        rw [hk] at hl
        exact absurd hl (by simp)
      | some b =>
        rw [hb] at hl
        dsimp only at hl
        by_cases h3 : e.status = .tracking
        · rw [if_pos h3] at hl
          by_cases h4 :
              decide (∃ k', (e.priceWindows k').locked = false) = true
          · rw [if_pos h4] at hl
            rw [show ({ e with
                priceWindows := fun k' =>
                  updateWindow b p (now - e.timestamp) k' (e.priceWindows k')
                status := if decide (∀ k', (updateWindow b p
                    (now - e.timestamp) k' (e.priceWindows k')).locked = true)
                  then MacroStatus.complete else .tracking } :
              MacroEventState).priceWindows k =
              updateWindow b p (now - e.timestamp) k (e.priceWindows k)
              from rfl] at hl
            simp only [updateWindow, hk, Bool.false_eq_true, if_false] at hl
            simpa using hl
          · rw [if_neg h4, hk] at hl
            exact absurd hl (by simp)
        · rw [if_neg h3, hk] at hl
          exact absurd hl (by simp)

/-- C6: in the live-tracking state machine, (i) a locked window's data is
never modified by a tick; (ii) a window never becomes locked before its
duration has elapsed (`now₂` being the tick instant of the price-update
phase); (iii) on a successful tick of a `tracking` event with a baseline,
a previously unlocked window ends the tick locked exactly when
`now₂ - event.timestamp ≥ durationMs`; and (iv) a `complete` event is
never mutated by any tick. -/
theorem tick_lock_invariants (now₁ now₂ : ℤ) (poll : Option ℚ)
    (e : MacroEventState) :
    (∀ k, (e.priceWindows k).locked = true →
      (tick now₁ now₂ poll e).priceWindows k = e.priceWindows k) ∧
    (∀ k, (e.priceWindows k).locked = false →
      ((tick now₁ now₂ poll e).priceWindows k).locked = true →
      now₂ - e.timestamp ≥ macroWindowMs k) ∧
    (∀ p b k, poll = some p → e.status = .tracking →
      e.baselinePrice = some b → (e.priceWindows k).locked = false →
      (((tick now₁ now₂ poll e).priceWindows k).locked = true ↔
        now₂ - e.timestamp ≥ macroWindowMs k)) ∧
    (e.status = .complete → tick now₁ now₂ poll e = e) := by
  refine ⟨fun k hk => ?_, fun k hk hl => ?_, fun p b k hp hst hb hk => ?_,
    fun hc => ?_⟩
  · cases poll with
    | none =>
      show (tickPhase1 now₁ e).priceWindows k = _
      rw [tickPhase1_priceWindows]
    | some p =>
      show (tickPhase2 now₂ p (tickPhase1 now₁ e)).priceWindows k = _
      rw [tickPhase2_locked_preserved now₂ p (tickPhase1 now₁ e) k
        (by rw [tickPhase1_priceWindows]; exact hk)]
      rw [tickPhase1_priceWindows]
  · cases poll with
    | none =>
      have : (tick now₁ now₂ none e).priceWindows = e.priceWindows :=
        tickPhase1_priceWindows now₁ e
      rw [this, hk] at hl
      exact absurd hl (by simp)
    | some p =>
      have h1 : (tick now₁ now₂ (some p) e).priceWindows k =
          (tickPhase2 now₂ p (tickPhase1 now₁ e)).priceWindows k := rfl
      rw [h1] at hl
      have := tickPhase2_lock_requires_elapsed now₂ p (tickPhase1 now₁ e) k
        (by rw [tickPhase1_priceWindows]; exact hk) hl
      rwa [tickPhase1_timestamp] at this
  · subst hp
    have he1 : tickPhase1 now₁ e = e :=
      tickPhase1_not_upcoming now₁ e (by rw [hst]; intro h; cases h)
    show (((tickPhase2 now₂ p (tickPhase1 now₁ e)).priceWindows k).locked
      = true) ↔ _
    rw [he1]
    unfold tickPhase2
    rw [if_neg (by rw [hst]; intro h; rcases h with h | h <;> cases h)]
    rw [if_neg (by rw [hb, hst]; intro h; cases h.1)]
    rw [hb]
    simp only
    rw [if_pos hst]
    rw [if_pos (by exact decide_eq_true ⟨k, hk⟩)]
    simp only [updateWindow, hk, Bool.false_eq_true, if_false]
    simp
  · have he1 : tickPhase1 now₁ e = e :=
      tickPhase1_not_upcoming now₁ e (by rw [hc]; intro h; cases h)
    cases poll with
    | none => exact he1
    | some p =>
      show tickPhase2 now₂ p (tickPhase1 now₁ e) = e
      rw [he1]
      unfold tickPhase2
      rw [if_pos (Or.inl hc)]

/-- C6, witness: a tracking event with baseline 100, an unlocked `1m`
window and a locked `10m` window, ticked with live price 101 at one
millisecond past the 1m mark; and a complete event ticked arbitrarily. -/
theorem tick_lock_invariants_witness :
    (((⟨0, some 100, fun k => if k = .m10 then ⟨some 99, some (-1), true⟩
          else emptyWindow, .tracking⟩ : MacroEventState).priceWindows
        .m10).locked = true) ∧
    (tick 60001 60001 (some 101)
        ⟨0, some 100, fun k => if k = .m10 then ⟨some 99, some (-1), true⟩
          else emptyWindow, .tracking⟩).priceWindows .m10 =
      (⟨0, some 100, fun k => if k = .m10 then ⟨some 99, some (-1), true⟩
          else emptyWindow, .tracking⟩ : MacroEventState).priceWindows .m10 ∧
    (((tick 60001 60001 (some 101)
        ⟨0, some 100, fun k => if k = .m10 then ⟨some 99, some (-1), true⟩
          else emptyWindow, .tracking⟩).priceWindows .m1).locked = true ↔
      (60001 : ℤ) - 0 ≥ macroWindowMs .m1) ∧
    tick 60001 60001 (some 101)
        ⟨0, some 100, fun _ => ⟨some 99, some (-1), true⟩, .complete⟩ =
      ⟨0, some 100, fun _ => ⟨some 99, some (-1), true⟩, .complete⟩ := by
  refine ⟨rfl, ?_, ?_, ?_⟩
  · exact (tick_lock_invariants 60001 60001 (some 101)
      ⟨0, some 100, fun k => if k = .m10 then ⟨some 99, some (-1), true⟩
        else emptyWindow, .tracking⟩).1 .m10 rfl
  · exact (tick_lock_invariants 60001 60001 (some 101)
      ⟨0, some 100, fun k => if k = .m10 then ⟨some 99, some (-1), true⟩
        else emptyWindow, .tracking⟩).2.2.1 101 100 .m1 rfl rfl rfl rfl
  · exact (tick_lock_invariants 60001 60001 (some 101)
      ⟨0, some 100, fun _ => ⟨some 99, some (-1), true⟩, .complete⟩).2.2.2 rfl

/-- C7, counterexample.  The claim asserts that when the live-price poll
fails no event undergoes any state transition that tick.  The
countdown/status update of the tick runs before the poll: an `upcoming`
event whose timestamp has passed becomes `released` even though the poll
returns `null`, refuting the claim. -/
theorem poll_failure_still_transitions :
    (tick 5 5 none
        ⟨0, none, fun _ => emptyWindow, .upcoming⟩).status ≠
      (⟨0, none, fun _ => emptyWindow, .upcoming⟩ :
        MacroEventState).status := by
  decide

/-- C7, amended: when the live-price poll fails, the tick performs no
price-related update — every event's `baselinePrice`, `priceWindows` and
timestamp are unchanged and every non-`upcoming` event keeps its status —
but the purely time-based `upcoming → released` transition, which runs
before the poll, still occurs: an `upcoming` event ends the tick
`released` iff its timestamp has passed. -/
theorem poll_failure_no_price_update (now₁ now₂ : ℤ) (e : MacroEventState) :
    (tick now₁ now₂ none e).baselinePrice = e.baselinePrice ∧
    (tick now₁ now₂ none e).priceWindows = e.priceWindows ∧
    (tick now₁ now₂ none e).timestamp = e.timestamp ∧
    (e.status ≠ .upcoming → (tick now₁ now₂ none e).status = e.status) ∧
    (e.status = .upcoming → (tick now₁ now₂ none e).status =
      (if e.timestamp ≤ now₁ then .released else .upcoming)) := by
  refine ⟨tickPhase1_baselinePrice now₁ e, tickPhase1_priceWindows now₁ e,
    tickPhase1_timestamp now₁ e,
    fun h => by rw [show tick now₁ now₂ none e = tickPhase1 now₁ e from rfl,
      tickPhase1_not_upcoming now₁ e h], fun h => ?_⟩
  show (tickPhase1 now₁ e).status = _
  unfold tickPhase1
  rw [if_neg (by rw [h]; intro hc; cases hc)]
  by_cases ht : e.timestamp ≤ now₁
  · rw [if_pos ⟨h, ht⟩, if_pos ht]
  · rw [if_neg (fun hc => ht hc.2), if_neg ht, h]

/-- C7, witness: a tracking event and an overdue upcoming event, both
ticked with a failed poll at `now = 5`. -/
theorem poll_failure_no_price_update_witness :
    ((⟨0, none, fun _ => emptyWindow, .tracking⟩ :
        MacroEventState).status ≠ .upcoming) ∧
    (tick 5 5 none ⟨0, none, fun _ => emptyWindow, .tracking⟩).status =
      MacroStatus.tracking ∧
    ((⟨0, none, fun _ => emptyWindow, .upcoming⟩ :
        MacroEventState).status = .upcoming) ∧
    (tick 5 5 none ⟨0, none, fun _ => emptyWindow, .upcoming⟩).status =
      (if (0 : ℤ) ≤ 5 then MacroStatus.released else .upcoming) ∧
    (tick 5 5 none
        ⟨0, none, fun _ => emptyWindow, .upcoming⟩).priceWindows =
      (⟨0, none, fun _ => emptyWindow, .upcoming⟩ :
        MacroEventState).priceWindows := by
  refine ⟨by decide, ?_, rfl, ?_, ?_⟩
  · exact (poll_failure_no_price_update 5 5
      ⟨0, none, fun _ => emptyWindow, .tracking⟩).2.2.2.1 (by decide)
  · exact (poll_failure_no_price_update 5 5
      ⟨0, none, fun _ => emptyWindow, .upcoming⟩).2.2.2.2 rfl
  · exact (poll_failure_no_price_update 5 5
      ⟨0, none, fun _ => emptyWindow, .upcoming⟩).2.1

/-! ## Claim C8 — division-by-zero guard -/

/-- C8, counterexample.  The claim asserts that a zero baseline yields
`change = null` for every offset in the headline calculator, the macro
backfill and the live tick.  The macro backfill has no zero-baseline
guard (it only checks for `null`): with baseline 0 at timestamp 0 and
price 5 at the elapsed `1m` window, the stored change is non-null
(computed by dividing by the zero baseline), refuting the claim. -/
theorem backfill_zero_baseline_change_not_null :
    ((backfillMacroEventPrices
        (fun t => if t = 0 then some 0 else some 5) 0 3600000).2
        TimeframeKey.m1).change ≠ none := by
  decide

/-- C8, amended: the `baselinePrice == 0 ⇒ change = null` guard holds in
the headline calculator and in the server route, whose change computation
is conditioned on `priceAtT !== 0`; the macro backfill and the
live-tracking tick check the baseline only against `null` and compute the
change by unguarded division even when the baseline is 0 (in JavaScript
producing `Infinity`/`NaN` rather than `null`). -/
theorem zero_baseline_guard :
    (∀ (f : PriceSource) (ts now : ℤ), f ts .i1m = some 0 →
      ∀ k, ((fetchMultiTimeframePricesClient f ts now).timeframes k).change
        = none) ∧
    (∀ (g : ℤ → RouteInterval → Option ℚ) (ts now : ℤ), g ts .i1m = some 0 →
      ∀ k, ((routeMultiTimeframeGET g ts now).timeframes k).change = none) ∧
    (∀ (g : ℤ → Option ℚ) (ts now : ℤ) (k : TimeframeKey) (p : ℚ),
      g ts = some 0 → ts + macroWindowMs k ≤ now →
      g (ts + macroWindowMs k) = some p →
      ((backfillMacroEventPrices g ts now).2 k).change =
        some ((p - 0) / 0 * 100)) ∧
    (∀ (now₁ now₂ : ℤ) (p : ℚ) (e : MacroEventState) (k : TimeframeKey),
      e.status = .tracking → e.baselinePrice = some 0 →
      (e.priceWindows k).locked = false →
      ((tick now₁ now₂ (some p) e).priceWindows k).change =
        some ((p - 0) / 0 * 100)) := by
  refine ⟨fun f ts now hf k => ?_, fun g ts now hg k => ?_,
    fun g ts now k p hg hk hp => ?_, fun now₁ now₂ p e k hst hb hk => ?_⟩
  · simp only [fetchMultiTimeframePricesClient, hf, computeTimeframe]
    by_cases ht : ts + tfMs k > now
    · rw [if_pos ht]
    · rw [if_neg ht]
      cases hv : f (ts + tfMs k) (tfInterval k) with
      | none => rfl
      | some v => simp
  · simp only [routeMultiTimeframeGET, hg]
    by_cases ht : ts + (ROUTE_TIMEFRAMES k).1 > now
    · rw [if_pos ht]
    · rw [if_neg ht]
      cases hv : g (ts + (ROUTE_TIMEFRAMES k).1) (ROUTE_TIMEFRAMES k).2 with
      | none => rfl
      | some v => simp
  · simp only [backfillMacroEventPrices, hg]
    rw [if_pos hk, hp]
  · have he1 : tickPhase1 now₁ e = e :=
      tickPhase1_not_upcoming now₁ e (by rw [hst]; intro hc; cases hc)
    show ((tickPhase2 now₂ p (tickPhase1 now₁ e)).priceWindows k).change = _
    rw [he1]
    unfold tickPhase2
    rw [if_neg (by rw [hst]; intro hc; rcases hc with hc | hc <;> cases hc)]
    rw [if_neg (by rw [hb, hst]; intro hc; cases hc.1)]
    rw [hb]
    dsimp only
    rw [if_pos hst, if_pos (decide_eq_true ⟨k, hk⟩)]
    show (updateWindow 0 p (now₂ - e.timestamp) k (e.priceWindows k)).change = _
    simp [updateWindow, hk]

/-- C8, witness: constant-zero baseline for the guarded calculators; a
zero baseline with price 5 at the elapsed `1m` window for the backfill
and for a tracking event ticked with live price 5. -/
theorem zero_baseline_guard_witness :
    ((fun (_ : ℤ) (_ : Interval) => (some 0 : Option ℚ)) 0 Interval.i1m
      = some 0) ∧
    ((fetchMultiTimeframePricesClient (fun _ _ => some 0) 0
        3600000).timeframes .m1).change = none ∧
    ((routeMultiTimeframeGET (fun _ _ => some 0) 0
        3600000).timeframes .m1).change = none ∧
    ((backfillMacroEventPrices (fun t => if t = 0 then some 0 else some 5) 0
        3600000).2 .m1).change = some (((5 : ℚ) - 0) / 0 * 100) ∧
    ((tick 60001 60001 (some 5)
        ⟨0, some 0, fun _ => emptyWindow, .tracking⟩).priceWindows .m1).change
      = some (((5 : ℚ) - 0) / 0 * 100) := by
  refine ⟨rfl, ?_, ?_, ?_, ?_⟩
  · exact zero_baseline_guard.1 (fun _ _ => some 0) 0 3600000 rfl .m1
  · exact zero_baseline_guard.2.1 (fun _ _ => some 0) 0 3600000 rfl .m1
  · exact zero_baseline_guard.2.2.1
      (fun t => if t = 0 then some 0 else some 5) 0 3600000 .m1 5
      (by decide) (by decide) (by decide)
  · exact zero_baseline_guard.2.2.2 60001 60001 5
      ⟨0, some 0, fun _ => emptyWindow, .tracking⟩ .m1 rfl rfl rfl

/-! ## Claim C3 — headline weighted aggregation

Spec-side restatement of the aggregation quantities: the weights summed
"only over resolved offsets with non-null change". -/

/-- The change of a timeframe counted only when the offset is resolved. -/
def resolvedChange (tf : TimeframeData) : Option ℚ :=
  if tf.pending then none else tf.change

/-- Spec-side positive directional weight: total weight of resolved
offsets with positive change. -/
def specPosWeight (tfs : TimeframeKey → TimeframeData) : ℚ :=
  (tfKeys.map fun k =>
    match resolvedChange (tfs k) with
    | some c => if c > 0 then TIMEFRAME_WEIGHTS k else 0
    | none => 0).sum

/-- Spec-side negative directional weight: total weight of resolved
offsets with negative change. -/
def specNegWeight (tfs : TimeframeKey → TimeframeData) : ℚ :=
  (tfKeys.map fun k =>
    match resolvedChange (tfs k) with
    | some c => if c < 0 then TIMEFRAME_WEIGHTS k else 0
    | none => 0).sum

/-- Spec-side weighted magnitude sum over resolved offsets with non-null
change. -/
def specMagWeight (tfs : TimeframeKey → TimeframeData) : ℚ :=
  (tfKeys.map fun k =>
    match resolvedChange (tfs k) with
    | some c => |c| * TIMEFRAME_WEIGHTS k
    | none => 0).sum

/-- Spec-side total weight of resolved offsets with non-null change. -/
def specTotalWeight (tfs : TimeframeKey → TimeframeData) : ℚ :=
  (tfKeys.map fun k =>
    match resolvedChange (tfs k) with
    | some _ => TIMEFRAME_WEIGHTS k
    | none => 0).sum

/-- Under the calculator's invariant that a pending timeframe carries no
change, the code's vote accumulator equals the four spec-side sums. -/
theorem voteTotals_spec (tfs : TimeframeKey → TimeframeData)
    (hinv : ∀ k, (tfs k).pending = true → (tfs k).change = none) :
    voteTotals tfs = ⟨specPosWeight tfs, specNegWeight tfs,
      specMagWeight tfs, specTotalWeight tfs⟩ := by
  have hrc : ∀ k, resolvedChange (tfs k) = (tfs k).change := by
    intro k
    unfold resolvedChange
    by_cases hp : (tfs k).pending = true
    · rw [if_pos hp, hinv k hp]
    · rw [if_neg hp]
  unfold voteTotals specPosWeight specNegWeight specMagWeight specTotalWeight
  simp only [hrc, tfKeys, List.foldl_cons, List.foldl_nil, List.map_cons,
    List.map_nil, List.sum_cons, List.sum_nil]
  rcases h1 : (tfs .m1).change with _ | c1 <;>
    rcases h2 : (tfs .m10).change with _ | c2 <;>
    rcases h3 : (tfs .m30).change with _ | c3 <;>
    rcases h4 : (tfs .h1).change with _ | c4 <;>
    simp only [voteStep, h1, h2, h3, h4, VoteAcc.mk.injEq] <;>
    refine ⟨by ring, by ring, by ring, by ring⟩

/-- The total weight is non-negative. -/
theorem specTotalWeight_nonneg (tfs : TimeframeKey → TimeframeData) :
    0 ≤ specTotalWeight tfs := by
  unfold specTotalWeight
  simp only [tfKeys, List.map_cons, List.map_nil, List.sum_cons,
    List.sum_nil]
  rcases resolvedChange (tfs .m1) with _ | c1 <;>
    rcases resolvedChange (tfs .m10) with _ | c2 <;>
    rcases resolvedChange (tfs .m30) with _ | c3 <;>
    rcases resolvedChange (tfs .h1) with _ | c4 <;>
    simp [TIMEFRAME_WEIGHTS] <;> norm_num

/-- If the total weight vanishes, no offset contributed, so the
directional weights vanish too. -/
theorem spec_weights_zero (tfs : TimeframeKey → TimeframeData) :
    specTotalWeight tfs = 0 →
    specPosWeight tfs = 0 ∧ specNegWeight tfs = 0 := by
  unfold specTotalWeight specPosWeight specNegWeight
  simp only [tfKeys, List.map_cons, List.map_nil, List.sum_cons,
    List.sum_nil]
  rcases resolvedChange (tfs .m1) with _ | c1 <;>
    rcases resolvedChange (tfs .m10) with _ | c2 <;>
    rcases resolvedChange (tfs .m30) with _ | c3 <;>
    rcases resolvedChange (tfs .h1) with _ | c4 <;>
    intro h <;>
    simp [TIMEFRAME_WEIGHTS] at h ⊢ <;>
    norm_num at h

/-- C3: in the headline variant, for every set of timeframe results
satisfying the calculator's invariant that pending offsets carry no
change, the direction is positive iff the positive weight (weights
1m=4, 10m=3, 30m=2, 1h=1 summed over resolved offsets with non-null
change) exceeds the negative weight, negative iff the converse, neutral
iff they tie; the score is
`(weightedMagnitudeSum / totalWeight) * (max(positiveWeight, negativeWeight) / totalWeight)`
when some weight accumulated, and score 0 / neutral direction when
`totalWeight = 0`, regardless of the baseline. -/
theorem headline_weighted_aggregation (tfs : TimeframeKey → TimeframeData)
    (hinv : ∀ k, (tfs k).pending = true → (tfs k).change = none) :
    ((aggregateImpact tfs).2 = .positive ↔
      specPosWeight tfs > specNegWeight tfs) ∧
    ((aggregateImpact tfs).2 = .negative ↔
      specNegWeight tfs > specPosWeight tfs) ∧
    ((aggregateImpact tfs).2 = .neutral ↔
      specPosWeight tfs = specNegWeight tfs) ∧
    (specTotalWeight tfs ≠ 0 →
      (aggregateImpact tfs).1 =
        specMagWeight tfs / specTotalWeight tfs *
          (max (specPosWeight tfs) (specNegWeight tfs) /
            specTotalWeight tfs)) ∧
    (specTotalWeight tfs = 0 →
      (aggregateImpact tfs).1 = 0 ∧ (aggregateImpact tfs).2 = .neutral) := by
  have hv := voteTotals_spec tfs hinv
  have hdir : (aggregateImpact tfs).2 =
      (if specPosWeight tfs > specNegWeight tfs then Direction.positive
       else if specNegWeight tfs > specPosWeight tfs then .negative
       else .neutral) := by
    unfold aggregateImpact
    rw [hv]
  have hscore : (aggregateImpact tfs).1 =
      (if specTotalWeight tfs > 0 then
        specMagWeight tfs / specTotalWeight tfs else 0) *
      (if specTotalWeight tfs > 0 then
        max (specPosWeight tfs) (specNegWeight tfs) / specTotalWeight tfs
       else 0) := by
    unfold aggregateImpact
    rw [hv]
  refine ⟨?_, ?_, ?_, fun hT => ?_, fun hT => ?_⟩
  · rw [hdir]
    split_ifs with h1 h2
    · exact iff_of_true rfl h1
    · exact iff_of_false (by simp) h1
    · exact iff_of_false (by simp) h1
  · rw [hdir]
    split_ifs with h1 h2
    · exact iff_of_false (by simp) (fun hc => absurd h1 (not_lt.mpr hc.le))
    · exact iff_of_true rfl h2
    · exact iff_of_false (by simp) h2
  · rw [hdir]
    split_ifs with h1 h2
    · exact iff_of_false (by simp) (fun hc => absurd h1 (by rw [hc]; simp))
    · exact iff_of_false (by simp) (fun hc => absurd h2 (by rw [hc]; simp))
    · exact iff_of_true rfl
        (le_antisymm (not_lt.mp h1) (not_lt.mp h2))
  · have hpos : specTotalWeight tfs > 0 :=
      lt_of_le_of_ne (specTotalWeight_nonneg tfs) (Ne.symm hT)
    rw [hscore, if_pos hpos, if_pos hpos]
  · obtain ⟨hP, hN⟩ := spec_weights_zero tfs hT
    constructor
    · rw [hscore, hT]
      simp
    · rw [hdir, hP, hN]
      simp

/-- C3, witness: a timeframe set with one resolved offset of change +1
(total weight 4), and the all-pending set (total weight 0). -/
theorem headline_weighted_aggregation_witness :
    (∀ k, ((fun k' => if k' = TimeframeKey.m1 then
        (⟨some 101, some 1, false⟩ : TimeframeData)
        else ⟨none, none, true⟩) k).pending = true →
      ((fun k' => if k' = TimeframeKey.m1 then
        (⟨some 101, some 1, false⟩ : TimeframeData)
        else ⟨none, none, true⟩) k).change = none) ∧
    ((aggregateImpact (fun k' => if k' = TimeframeKey.m1 then
        ⟨some 101, some 1, false⟩ else ⟨none, none, true⟩)).2 = .positive ↔
      specPosWeight (fun k' => if k' = TimeframeKey.m1 then
        ⟨some 101, some 1, false⟩ else ⟨none, none, true⟩) >
      specNegWeight (fun k' => if k' = TimeframeKey.m1 then
        ⟨some 101, some 1, false⟩ else ⟨none, none, true⟩)) ∧
    specTotalWeight (fun k' => if k' = TimeframeKey.m1 then
      ⟨some 101, some 1, false⟩ else ⟨none, none, true⟩) ≠ 0 ∧
    (aggregateImpact (fun k' => if k' = TimeframeKey.m1 then
        ⟨some 101, some 1, false⟩ else ⟨none, none, true⟩)).1 =
      specMagWeight (fun k' => if k' = TimeframeKey.m1 then
          ⟨some 101, some 1, false⟩ else ⟨none, none, true⟩) /
        specTotalWeight (fun k' => if k' = TimeframeKey.m1 then
          ⟨some 101, some 1, false⟩ else ⟨none, none, true⟩) *
        (max (specPosWeight (fun k' => if k' = TimeframeKey.m1 then
            ⟨some 101, some 1, false⟩ else ⟨none, none, true⟩))
          (specNegWeight (fun k' => if k' = TimeframeKey.m1 then
            ⟨some 101, some 1, false⟩ else ⟨none, none, true⟩)) /
          specTotalWeight (fun k' => if k' = TimeframeKey.m1 then
            ⟨some 101, some 1, false⟩ else ⟨none, none, true⟩)) ∧
    specTotalWeight (fun _ => ⟨none, none, true⟩) = 0 ∧
    (aggregateImpact (fun _ => (⟨none, none, true⟩ : TimeframeData))).1 = 0 ∧
    (aggregateImpact (fun _ => (⟨none, none, true⟩ : TimeframeData))).2 =
      .neutral := by
  have hTA : specTotalWeight (fun k' => if k' = TimeframeKey.m1 then
      ⟨some 101, some 1, false⟩ else ⟨none, none, true⟩) ≠ 0 := by
    simp [specTotalWeight, resolvedChange, tfKeys, TIMEFRAME_WEIGHTS]
  have hTB : specTotalWeight
      (fun _ => (⟨none, none, true⟩ : TimeframeData)) = 0 := by
    simp [specTotalWeight, resolvedChange, tfKeys]
  have hinvA : ∀ k, ((fun k' => if k' = TimeframeKey.m1 then
      (⟨some 101, some 1, false⟩ : TimeframeData)
      else ⟨none, none, true⟩) k).pending = true →
      ((fun k' => if k' = TimeframeKey.m1 then
      (⟨some 101, some 1, false⟩ : TimeframeData)
      else ⟨none, none, true⟩) k).change = none := by
    intro k
    cases k <;> simp
  have hinvB : ∀ k, ((fun (_ : TimeframeKey) =>
      (⟨none, none, true⟩ : TimeframeData)) k).pending = true →
      ((fun (_ : TimeframeKey) =>
      (⟨none, none, true⟩ : TimeframeData)) k).change = none := by
    intro k _
    rfl
  exact ⟨hinvA,
    (headline_weighted_aggregation _ hinvA).1,
    hTA,
    (headline_weighted_aggregation _ hinvA).2.2.2.1 hTA,
    hTB,
    (headline_weighted_aggregation _ hinvB).2.2.2.2 hTB⟩

end EthVibes
